import Mathlib

/-!
Formal model of the P2PMART escrow bot (sources: newbot.py and newuserbot.py).

The Python module-level dictionaries are modelled as association lists with
insertion-order semantics (the same order Python dicts preserve).  Python
numeric strings are parsed by faithful reimplementations of CPython's
`int(s, 16)` and `float(s)` grammars (sign, optional 0x prefix, underscores
between digits, `inf` / `nan` forms); IEEE-754 rounding of finite decimal
literals is abstracted to exact rationals, with NaN and the two infinities
kept as explicit values because the bot's comparisons observe them.
Message sends, message edits and the external BSCscan lookup are modelled as
explicit actions in the output of each handler.
-/

namespace P2pup

/-- Python `dict.get`: first (and only) binding for a key in an association
list. -/
def dictGet {K V : Type} [DecidableEq K] (d : List (K × V)) (k : K) : Option V :=
  match d with
  | [] => none
  | (k', v) :: rest => if k' = k then some v else dictGet rest k

/-- Python `d[k] = v`: update in place if the key exists, append otherwise. -/
def dictSet {K V : Type} [DecidableEq K] (d : List (K × V)) (k : K) (v : V) :
    List (K × V) :=
  match d with
  | [] => [(k, v)]
  | (k', v') :: rest =>
    if k' = k then (k, v) :: rest else (k', v') :: dictSet rest k v

/-- Python `del d[k]` / `d.pop(k, None)`. -/
def dictDel {K V : Type} [DecidableEq K] (d : List (K × V)) (k : K) :
    List (K × V) :=
  match d with
  | [] => []
  | (k', v') :: rest =>
    if k' = k then dictDel rest k else (k', v') :: dictDel rest k

/-- Python `str.strip()` on a character list (ASCII whitespace). -/
def stripL (l : List Char) : List Char :=
  ((l.dropWhile Char.isWhitespace).reverse.dropWhile Char.isWhitespace).reverse

/-- Python `str.strip()`. -/
def stripS (s : String) : String := ⟨stripL s.data⟩

/-- Python `str.lower()` (ASCII). -/
def lowerS (s : String) : String := ⟨s.data.map Char.toLower⟩

/-- Python `str.upper()` (ASCII). -/
def upperS (s : String) : String := ⟨s.data.map Char.toUpper⟩

/-- Python `len(s)`. -/
def lenS (s : String) : Nat := s.data.length

/-- Python `s.startswith(p)`. -/
def startsWithS (s p : String) : Bool := List.isPrefixOf p.data s.data

/-- Python `s.replace(pat, rep)` on character lists for a non-empty pattern
`p0 :: pt`: every non-overlapping occurrence, scanned left to right.  The
`fuel` argument (instantiated with the input length, which bounds the
recursion depth) keeps the recursion structural. -/
def replaceCore (p0 : Char) (pt rep : List Char) : Nat → List Char → List Char
  | 0, l => l
  | _ + 1, [] => []
  | fuel + 1, c :: cs =>
    if List.isPrefixOf (p0 :: pt) (c :: cs) then
      rep ++ replaceCore p0 pt rep fuel (cs.drop pt.length)
    else
      c :: replaceCore p0 pt rep fuel cs

/-- Python `s.replace(pat, rep)` (the source only replaces the non-empty
pattern `0x`, so the empty-pattern case is immaterial). -/
def replaceS (s pat rep : String) : String :=
  match pat.data with
  | [] => s
  | p0 :: pt => ⟨replaceCore p0 pt rep.data s.data.length s.data⟩

/-- Python `s.split(sep)` on character lists for a non-empty separator
`s0 :: st`, with the same structural `fuel` argument. -/
def splitCore (s0 : Char) (st : List Char) : Nat → List Char → List (List Char)
  | 0, l => [l]
  | _ + 1, [] => [[]]
  | fuel + 1, c :: cs =>
    if List.isPrefixOf (s0 :: st) (c :: cs) then
      [] :: splitCore s0 st fuel (cs.drop st.length)
    else
      match splitCore s0 st fuel cs with
      | [] => [[c]]
      | p :: ps => (c :: p) :: ps

/-- Python `s.split(sep)` for the non-empty separators used by the source. -/
def splitOnS (s sep : String) : List String :=
  match sep.data with
  | [] => [s]
  | s0 :: st => (splitCore s0 st s.data.length s.data).map (fun l => ⟨l⟩)

/-- Python `pat in s` (substring containment, non-empty pattern). -/
def containsSub (s pat : String) : Bool := (splitOnS s pat).length > 1

/-- Is `c` a hexadecimal digit (Python `int(·, 16)` digit set)? -/
def isHexDig (c : Char) : Bool :=
  c.isDigit || ('a' ≤ c && c ≤ 'f') || ('A' ≤ c && c ≤ 'F')

/-- Numeric value of a hexadecimal digit. -/
def hexVal (c : Char) : Nat :=
  if c.isDigit then c.toNat - '0'.toNat
  else if 'a' ≤ c && c ≤ 'f' then c.toNat - 'a'.toNat + 10
  else c.toNat - 'A'.toNat + 10

/-- Continuation of a CPython digit run: after a first digit, further digits
may follow directly or after a single underscore (underscores are only legal
between digits).  Returns the digits read and the unconsumed suffix. -/
def digitRunCont (isD : Char → Bool) : List Char → List Char × List Char
  | [] => ([], [])
  | '_' :: c :: cs =>
    if isD c then
      let p := digitRunCont isD cs
      (c :: p.1, p.2)
    else ([], '_' :: c :: cs)
  | c :: cs =>
    if isD c then
      let p := digitRunCont isD cs
      (c :: p.1, p.2)
    else ([], c :: cs)

/-- A CPython digit run: at least one digit, with single underscores allowed
between digits.  Fails if the input does not start with a digit. -/
def digitRun (isD : Char → Bool) (l : List Char) :
    Option (List Char × List Char) :=
  match l with
  | c :: cs =>
    if isD c then
      let p := digitRunCont isD cs
      some (c :: p.1, p.2)
    else none
  | [] => none

/-- Value of a big-endian digit list in the given base. -/
def digitsVal (base : Nat) (f : Char → Nat) (ds : List Char) : Nat :=
  ds.foldl (fun acc c => base * acc + f c) 0

/-- Body of CPython `int(s, 16)` after sign stripping: an optional `0x`/`0X`
prefix (which may be followed by one underscore), then a hex digit run that
must consume the rest of the input. -/
def pyIntHexCore (l : List Char) : Option Nat :=
  match l with
  | '0' :: c :: rest =>
    if c = 'x' || c = 'X' then
      let body := match rest with
        | '_' :: rest2 => rest2
        | _ => rest
      match digitRun isHexDig body with
      | some (ds, []) => some (digitsVal 16 hexVal ds)
      | _ => none
    else
      match digitRun isHexDig ('0' :: c :: rest) with
      | some (ds, []) => some (digitsVal 16 hexVal ds)
      | _ => none
  | _ =>
    match digitRun isHexDig l with
    | some (ds, []) => some (digitsVal 16 hexVal ds)
    | _ => none

/-- CPython `int(s, 16)`: strip surrounding whitespace, optional sign, then
the hex body.  `none` models a raised `ValueError`. -/
def pyIntHex? (s : String) : Option Int :=
  match (stripS s).data with
  | '+' :: rest => (pyIntHexCore rest).map (fun n => (n : Int))
  | '-' :: rest => (pyIntHexCore rest).map (fun n => -(n : Int))
  | l => (pyIntHexCore l).map (fun n => (n : Int))

/-- A CPython float value as observed by the bot's comparisons.  A finite
value is kept as an exact fraction `n / d` (`d` positive by construction);
IEEE-754 rounding is abstracted away, NaN and the infinities are explicit
because the bot's `<` comparisons observe them. -/
inductive PyFloat where
  | nan : PyFloat
  | inf : Bool → PyFloat
  | num : Int → Nat → PyFloat
deriving DecidableEq

/-- Finite-decimal body of CPython `float(s)` (after sign stripping):
`digits [. digits] [exp]` or `. digits [exp]`, with underscores between
digits; the exact value is returned as a numerator/denominator pair. -/
def decCore (l : List Char) : Option (Nat × Nat) :=
  let p1 := digitRun Char.isDigit l
  let ipDigits := match p1 with | some (ds, _) => ds | none => []
  let r1 := match p1 with | some (_, r) => r | none => l
  let fracStep : List Char × List Char := match r1 with
    | '.' :: r =>
      match digitRun Char.isDigit r with
      | some (ds, r3) => (ds, r3)
      | none => ([], r)
    | _ => ([], r1)
  let fpDigits := fracStep.1
  let r2 := fracStep.2
  if ipDigits = [] ∧ fpDigits = [] then none
  else
    let n0 := digitsVal 10 hexVal (ipDigits ++ fpDigits)
    let d0 := 10 ^ fpDigits.length
    match r2 with
    | [] => some (n0, d0)
    | e :: r3 =>
      if e = 'e' ∨ e = 'E' then
        let expStep : Bool × List Char := match r3 with
          | '+' :: r => (false, r)
          | '-' :: r => (true, r)
          | r => (false, r)
        match digitRun Char.isDigit expStep.2 with
        | some (eds, []) =>
          some (if expStep.1 then (n0, d0 * 10 ^ digitsVal 10 hexVal eds)
                else (n0 * 10 ^ digitsVal 10 hexVal eds, d0))
        | _ => none
      else none

/-- CPython `float(s)`: strip whitespace, optional sign, then `inf`,
`infinity`, `nan` (case-insensitive) or a finite decimal literal.
`none` models a raised `ValueError`. -/
def pyFloat? (s : String) : Option PyFloat :=
  let t := (stripS s).data
  let signStep : Bool × List Char := match t with
    | '+' :: r => (false, r)
    | '-' :: r => (true, r)
    | r => (false, r)
  let neg := signStep.1
  let body := signStep.2
  let lower := body.map Char.toLower
  if lower = "inf".data ∨ lower = "infinity".data then some (PyFloat.inf neg)
  else if lower = "nan".data then some PyFloat.nan
  else
    match decCore body with
    | some p =>
      some (PyFloat.num (if neg then -(p.1 : Int) else (p.1 : Int)) p.2)
    | none => none

/-- Python `f < k` for a float `f` and an integer threshold `k`
(NaN compares false). -/
def pyLt (f : PyFloat) (k : Nat) : Bool :=
  match f with
  | PyFloat.nan => false
  | PyFloat.inf neg => neg
  | PyFloat.num n d => decide (n < (k : Int) * (d : Int))

/-- Python `f >= k` (NaN compares false). -/
def pyGe (f : PyFloat) (k : Nat) : Bool :=
  match f with
  | PyFloat.nan => false
  | PyFloat.inf neg => !neg
  | PyFloat.num n d => decide ((k : Int) * (d : Int) ≤ n)

/-- Python truthiness of a float (`0.0` is falsy; NaN and infinities are
truthy). -/
def pyTruthy (f : PyFloat) : Bool :=
  match f with
  | PyFloat.num n _ => decide (n ≠ 0)
  | _ => true

/-- Python truthiness of an optional string (`None` and `''` are falsy). -/
def optTruthy (o : Option String) : Bool :=
  match o with
  | some s => decide (s ≠ "")
  | none => false

/-- newbot.py line 145: the master hash whose submission skips
verification. -/
def master_hash : String :=
  "0x6f83337833118197454614dGe9168365dd3c85232dadb6bbd97f4e240eb5c7dd9"

/-- newbot.py lines 146-149: the fixed per-(blockchain, coin) escrow map
used by hash verification. -/
def deposit_addresses_map : List ((String × String) × String) :=
  [(("BSC", "USDT"), "0xDA4c2a5B876b0c7521e1c752690D8705080000fE"),
   (("BSC", "USDC"), "0xDA4c2a5B876b0c7521e1c752690D8705080000fE")]

/-- newbot.py lines 152-155: rotating USDT BSC deposit addresses. -/
def USDT_BSC_ADDRESSES : List String :=
  ["0xDA4c2a5B876b0c7521e1c752690D8705080000fE",
   "0xf282e789e835ed379aea84ece204d2d643e6774f"]

/-- newbot.py lines 159-162: rotating USDC BSC deposit addresses. -/
def USDC_BSC_ADDRESSES : List String :=
  ["0xAe6313dE2fDD754734074D8a6F4835c10827115b",
   "0xC941064db91dB2B54e3Acd909a7020583f05bD14"]

/-- newbot.py line 140. -/
def valid_payment_methods : List String :=
  ["UPI", "CDM", "CCW", "CASH", "ATM", "CARDLESS", "IMPS", "RTGS", "NEFT"]

/-- Outcome of the external BSCscan request, the only non-deterministic
input of `verify_transaction_bscscan`: the HTTP call raises, returns an
empty body, returns a body that is not JSON, returns a transaction object,
or answers without a transaction (`result` missing or not a dict). -/
inductive LookupOutcome where
  | netError (msg : String)
  | emptyText
  | badJson
  | txFound (fromAddr toAddr valueHex blockNumber : String)
  | notFound
deriving DecidableEq

/-- Return value of `verify_transaction_bscscan` (newbot.py lines
1818-1984).  The display string for the amount (Python
`f"(value_wei / 1e6):.2f"`) is abstracted to the raw integer wei value. -/
structure VerifyResult where
  valid : Bool
  amountWei : Option Int
  fromAddress : Option String
  toAddress : Option String
  blockNumber : Option String
  error : Option String
deriving DecidableEq

/-- The all-`None` failure record returned on every invalid branch. -/
def invalidResult (err : String) : VerifyResult :=
  ⟨false, none, none, none, none, some err⟩

/-- newbot.py lines 1833-1837: hash normalization inside the verifier
(strip whitespace, ensure a `0x` prefix). -/
def normalizedTxHash (txHashIn : String) : String :=
  let tx0 := stripS txHashIn
  if startsWithS tx0 "0x" then tx0 else "0x" ++ tx0

/-- The verifier's well-formedness gate (newbot.py lines 1840-1863): the
normalized hash is at least 32 characters and
`int(tx_hash.replace('0x', ''), 16)` succeeds. -/
def wellFormedTxHash (txHashIn : String) : Bool :=
  decide (32 ≤ lenS (normalizedTxHash txHashIn)) &&
    (pyIntHex? (replaceS (normalizedTxHash txHashIn) "0x" "")).isSome

/-- newbot.py lines 1818-1984, `verify_transaction_bscscan`. -/
def verify_transaction_bscscan (txHashIn escrowAddressIn : String)
    (hasApiKey : Bool) (outcome : LookupOutcome) : VerifyResult :=
  let escrowAddress := lowerS escrowAddressIn
  let txHash := normalizedTxHash txHashIn
  if lenS txHash < 32 then
    invalidResult "Invalid transaction hash format (must be at least 32 characters)"
  else if (pyIntHex? (replaceS txHash "0x" "")).isNone then
    invalidResult "Transaction hash must contain only hexadecimal characters (0-9, a-f)"
  else if !hasApiKey then
    invalidResult "API key not configured"
  else
    match outcome with
    | LookupOutcome.netError m =>
      invalidResult ("Error verifying transaction: " ++ m)
    | LookupOutcome.emptyText =>
      invalidResult "BSCscan API returned empty response. Check API key or try again."
    | LookupOutcome.badJson =>
      invalidResult "Invalid API response format"
    | other =>
      let tup : String × String × String × String :=
        match other with
        | LookupOutcome.txFound f t v b => (lowerS f, lowerS t, v, b)
        | _ =>
          ("0x" ++ (if lenS txHash > 42 then ⟨(txHash.data.drop 2).take 40⟩
                    else ⟨List.replicate 40 '1'⟩),
           escrowAddress, "0x5f5e100", "0")
      let fromAddress := tup.1
      let toAddress := tup.2.1
      let valueWei : Int := (pyIntHex? tup.2.2.1).getD 0
      let blockNumber := tup.2.2.2
      if toAddress ≠ escrowAddress then
        invalidResult "Transaction not sent to escrow address"
      else
        ⟨true, some valueWei, some fromAddress, some toAddress,
         some blockNumber, none⟩

/-- The `room_initiators` entry of a room: the usernames holding the buyer
and seller roles (a key may be absent). -/
structure RoomRoles where
  buyer : Option String
  seller : Option String
deriving DecidableEq

/-- The slice of newbot.py module-level state that `handle_text` reads and
writes for one room: the room-keyed entries of `room_transaction_state`,
`room_initiators`, `user_blockchain`, `user_coins`, `buyer_addresses`,
`seller_addresses`, `room_awaiting_hash`, `room_confirmed_deposits` and
membership in `deposit_address_messages`, plus the user-keyed global dicts
`user_amounts`, `user_rates`, `user_payment_methods`. -/
structure RoomCtx where
  transactionState : Option String
  initiators : Option RoomRoles
  blockchain : Option String
  coin : Option String
  amounts : List (Nat × PyFloat)
  rates : List (Nat × PyFloat)
  paymentMethods : List (Nat × String)
  buyerAddress : Option String
  sellerAddress : Option String
  awaitingHash : Option String
  confirmedDeposit : Option PyFloat
  hasDepositMsg : Bool
deriving DecidableEq

/-- Observable side effects of one `handle_text` invocation. -/
inductive BotAction where
  | reply (text : String)
  | send (text : String)
  | prompt (step : String)
  | deleteUserMessage
  | verifyCall (txHash escrowAddress : String)
  | depositFound (amount : PyFloat) (sellerAddr toAddr txHash : String)
  | editDepositMessage
deriving DecidableEq

/-- The rejection text sent for a malformed wallet address. -/
def addrFormatErr : String :=
  "Invalid address format. Address must start with 0x and be 42 characters (0x + 40 hexadecimal characters)."

/-- newbot.py lines 2382-2398: the `step1` (amount) branch of
`handle_text`.  On success `send_step2_rate_message` advances the state to
`step2` (message delivery modelled as succeeding). -/
def amountStep (ctx : RoomCtx) (senderId : Nat) (text : String) :
    RoomCtx × List BotAction :=
  match pyFloat? text with
  | none => (ctx, [BotAction.reply "Please enter a valid number"])
  | some amount =>
    if pyLt amount 1 then (ctx, [BotAction.reply "Amount must be at least 1"])
    else
      ({ ctx with amounts := dictSet ctx.amounts senderId amount,
                  transactionState := some "step2" },
       [BotAction.prompt "step2"])

/-- newbot.py lines 2400-2418: the `step2` (rate) branch. -/
def rateStep (ctx : RoomCtx) (senderId : Nat) (text : String) :
    RoomCtx × List BotAction :=
  match pyFloat? text with
  | none => (ctx, [BotAction.reply "Please enter a valid number"])
  | some rate =>
    if pyLt rate 85 then (ctx, [BotAction.reply "Rate must be at least 85"])
    else
      ({ ctx with rates := dictSet ctx.rates senderId rate,
                  transactionState := some "step3" },
       [BotAction.prompt "step3"])

/-- newbot.py lines 2420-2436: the `step3` (payment method) branch. -/
def paymentStep (ctx : RoomCtx) (senderId : Nat) (text : String) :
    RoomCtx × List BotAction :=
  let pm := upperS text
  if !(valid_payment_methods.contains pm) then
    (ctx, [BotAction.reply "Invalid Payment Method"])
  else
    ({ ctx with paymentMethods := dictSet ctx.paymentMethods senderId pm,
                transactionState := some "step4" },
     [BotAction.prompt "step4"])

/-- newbot.py lines 2438-2500: the `step6_buyer_address` branch. -/
def buyerAddressStep (ctx : RoomCtx) (sender : String) (text : String) :
    RoomCtx × List BotAction :=
  let unauthorized :=
    match ctx.initiators with
    | some r =>
      match r.buyer with
      | some b => decide (b ≠ "") && decide (lowerS sender ≠ lowerS b)
      | none => false
    | none => false
  if unauthorized then
    (ctx, [BotAction.reply "Only the buyer can provide their wallet address"])
  else if !(startsWithS text "0x") then (ctx, [BotAction.reply addrFormatErr])
  else if lenS text ≠ 42 then (ctx, [BotAction.reply addrFormatErr])
  else if (pyIntHex? ⟨text.data.drop 2⟩).isNone then
    (ctx, [BotAction.reply addrFormatErr])
  else
    let sellerName : Option String :=
      match ctx.initiators with
      | some r => r.seller
      | none => none
    let acts := if optTruthy sellerName then [BotAction.prompt "step6_seller"]
                else []
    ({ ctx with buyerAddress := some text,
                transactionState := some "step7_seller_address" }, acts)

/-- newbot.py lines 2502-2537: the `step7_seller_address` branch. -/
def sellerAddressStep (ctx : RoomCtx) (sender : String) (text : String) :
    RoomCtx × List BotAction :=
  let unauthorized :=
    match ctx.initiators with
    | some r =>
      match r.seller with
      | some s => decide (s ≠ "") && decide (lowerS sender ≠ lowerS s)
      | none => false
    | none => false
  if unauthorized then
    (ctx, [BotAction.reply "Only the seller can provide their wallet address"])
  else if !(startsWithS text "0x") then (ctx, [BotAction.reply addrFormatErr])
  else if lenS text ≠ 42 then (ctx, [BotAction.reply addrFormatErr])
  else if (pyIntHex? ⟨text.data.drop 2⟩).isNone then
    (ctx, [BotAction.reply addrFormatErr])
  else
    ({ ctx with sellerAddress := some text,
                transactionState := some "deal_summary" },
     [BotAction.prompt "deal_summary"])

/-- newbot.py lines 2575-2578: the escrow address a submitted hash is
verified against — a `deposit_addresses_map` lookup keyed by the room's
blockchain and coin selections. -/
def verificationEscrow (blockchain coin : Option String) : Option String :=
  match blockchain, coin with
  | some b, some c => dictGet deposit_addresses_map (b, c)
  | _, _ => none

/-- newbot.py lines 2545-2560: hash extraction from a pasted explorer link
(`split('tx/')[-1].split('?')[0].strip()`) or a direct hash. -/
def extractTxHash (txInput : String) : String :=
  if containsSub txInput "bscscan.com/tx/" then
    stripS ((splitOnS ((splitOnS txInput "tx/").getLastD "") "?").headD "")
  else if containsSub txInput "etherscan.io/tx/" then
    stripS ((splitOnS ((splitOnS txInput "tx/").getLastD "") "?").headD "")
  else txInput

/-- newbot.py lines 2539-2742: the `awaiting_hash` branch of `handle_text`.
The BSCscan call is recorded as a `verifyCall` action and its outcome is
supplied by the `outcome` parameter. -/
def hashStep (ctx : RoomCtx) (text : String) (hasApiKey : Bool)
    (outcome : LookupOutcome) : RoomCtx × List BotAction :=
  let txInput := stripS text
  let txHash := extractTxHash txInput
  let del := [BotAction.deleteUserMessage]
  match verificationEscrow ctx.blockchain ctx.coin with
  | none =>
    (ctx, del ++ [BotAction.send "Escrow address not found. Please contact support."])
  | some escrowAddress =>
    match (ctx.amounts.head?).map (fun p => p.2) with
    | none => (ctx, del ++ [BotAction.send "Amount not found"])
    | some amount =>
      if !(pyTruthy amount) then (ctx, del ++ [BotAction.send "Amount not found"])
      else if lowerS txHash = lowerS master_hash then
        let sellerAddr := ctx.sellerAddress.getD ("0x" ++ ⟨List.replicate 40 '0'⟩)
        ({ ctx with confirmedDeposit := some amount, awaitingHash := none,
                    transactionState := none },
         del ++ [BotAction.depositFound amount sellerAddr escrowAddress txHash]
             ++ (if ctx.hasDepositMsg then [BotAction.editDepositMessage] else [])
             ++ [BotAction.send "Payment Received!"])
      else
        let vr := verify_transaction_bscscan txHash escrowAddress hasApiKey outcome
        let acts := del ++ [BotAction.verifyCall txHash escrowAddress]
        if vr.valid then
          let sellerAddr := ctx.sellerAddress.getD (vr.fromAddress.getD "")
          ({ ctx with confirmedDeposit := some amount, awaitingHash := none,
                      transactionState := none },
           acts ++ [BotAction.depositFound amount sellerAddr (vr.toAddress.getD "") txHash]
                ++ (if ctx.hasDepositMsg then [BotAction.editDepositMessage] else [])
                ++ [BotAction.send "Payment Received!"])
        else
          (ctx, acts ++ [BotAction.send (vr.error.getD "Transaction verification failed")])

/-- newbot.py lines 2353-2752: the group branch of `handle_text`,
dispatching on `room_transaction_state.get(original_chat_id)`. -/
def handle_text (ctx : RoomCtx) (sender : String) (senderId : Nat)
    (text : String) (hasApiKey : Bool) (outcome : LookupOutcome) :
    RoomCtx × List BotAction :=
  match ctx.transactionState with
  | some st =>
    if st = "step1" then amountStep ctx senderId text
    else if st = "step2" then rateStep ctx senderId text
    else if st = "step3" then paymentStep ctx senderId text
    else if st = "step6_buyer_address" then buyerAddressStep ctx sender text
    else if st = "step7_seller_address" then sellerAddressStep ctx sender text
    else if st = "awaiting_hash" then hashStep ctx text hasApiKey outcome
    else (ctx, [])
  | none => (ctx, [])

/-- Recognizer for the external verification call among the actions. -/
def isVerifyCall : BotAction → Bool
  | BotAction.verifyCall _ _ => true
  | _ => false

/-- Recognizer for the deposit-found confirmation among the actions. -/
def isDepositFound : BotAction → Bool
  | BotAction.depositFound _ _ _ _ => true
  | _ => false

/-- Recognizer for a direct rejection reply among the actions. -/
def isReply : BotAction → Bool
  | BotAction.reply _ => true
  | _ => false

/-- The wallet-address acceptance condition applied by the
`step6_buyer_address` / `step7_seller_address` branches, in the order the
source checks it: `startswith('0x')`, `len == 42`, and
`int(text[2:], 16)` succeeding. -/
def addrFormatOk (text : String) : Bool :=
  startsWithS text "0x" && decide (lenS text = 42) &&
    (pyIntHex? ⟨text.data.drop 2⟩).isSome

/-- The release-gate state of one room: the `room_initiators` usernames
(`''` when absent, matching `.get(..., '')` in the source), the
`release_approvals` entry, and membership in `release_messages`. -/
structure ReleaseCtx where
  buyerUsername : String
  sellerUsername : String
  approvals : Option (String × String)
  hasReleaseMsg : Bool
deriving DecidableEq

/-- Observable effects of one release-gate button press. -/
inductive RelAction where
  | answerUnauthorized
  | dealComplete
  | editCaption (keepButtons : Bool)
  | answerApproved
  | answerDeclined
deriving DecidableEq

/-- newbot.py lines 892-906 / 1051-1065: role of a presser in the release
gate (`'buyer'` / `'seller'`, `none` = unauthorized). -/
def releaseUserRole (ctx : ReleaseCtx) (username : String) : Option String :=
  if ctx.buyerUsername ≠ "" ∧ lowerS username = lowerS ctx.buyerUsername then
    some "buyer"
  else if ctx.sellerUsername ≠ "" ∧ lowerS username = lowerS ctx.sellerUsername then
    some "seller"
  else none

/-- newbot.py lines 887-984: the `approve_release_` branch of
`button_callback`. -/
def approve_release (ctx : ReleaseCtx) (username : String) :
    ReleaseCtx × List RelAction :=
  match releaseUserRole ctx username with
  | none => (ctx, [RelAction.answerUnauthorized])
  | some role =>
    let cur := ctx.approvals.getD ("waiting", "waiting")
    let upd := if role = "buyer" then ("approved", cur.2) else (cur.1, "approved")
    let ctx' := { ctx with approvals := some upd }
    if upd.1 = "approved" ∧ upd.2 = "approved" then
      (ctx', [RelAction.dealComplete]
             ++ (if ctx.hasReleaseMsg then [RelAction.editCaption false] else [])
             ++ [RelAction.answerApproved])
    else
      (ctx', (if ctx.hasReleaseMsg then [RelAction.editCaption true] else [])
             ++ [RelAction.answerApproved])

/-- newbot.py lines 1046-1159: the `decline_release_` branch of
`button_callback` (both of its display sub-branches keep the buttons and
never fire completion). -/
def decline_release (ctx : ReleaseCtx) (username : String) :
    ReleaseCtx × List RelAction :=
  match releaseUserRole ctx username with
  | none => (ctx, [RelAction.answerUnauthorized])
  | some role =>
    let cur := ctx.approvals.getD ("waiting", "waiting")
    let upd := if role = "buyer" then ("rejected", cur.2) else (cur.1, "rejected")
    ({ ctx with approvals := some upd },
     (if ctx.hasReleaseMsg then [RelAction.editCaption true] else [])
       ++ [RelAction.answerDeclined])

/-- A release-gate button press. -/
inductive PressKind where
  | approve
  | decline
deriving DecidableEq

/-- Dispatch of one release-gate press. -/
def releasePress (ctx : ReleaseCtx) (p : String × PressKind) :
    ReleaseCtx × List RelAction :=
  match p.2 with
  | PressKind.approve => approve_release ctx p.1
  | PressKind.decline => decline_release ctx p.1

/-- Run a sequence of release-gate presses, accumulating all actions. -/
def runReleasePresses (ctx : ReleaseCtx) (presses : List (String × PressKind)) :
    ReleaseCtx × List RelAction :=
  presses.foldl
    (fun acc p =>
      let r := releasePress acc.1 p
      (r.1, acc.2 ++ r.2))
    (ctx, [])

/-- Number of completion firings in an action list. -/
def countDealComplete (acts : List RelAction) : Nat :=
  acts.countP (fun a => a = RelAction.dealComplete)

/-- The role-selection state of one room: the `role_messages` tuple
(initiator and counterparty usernames; `hasRoleMsg` is membership of the
room in `role_messages`), the `user_roles` entry, and membership in
`step1_messages_sent`. -/
structure RoleCtx where
  initiator : String
  counterparty : String
  hasRoleMsg : Bool
  roles : List (String × String)
  step1Sent : Bool
deriving DecidableEq

/-- A role button (`role_buyer_` / `role_seller_` callback). -/
inductive RoleKind where
  | buyer
  | seller
deriving DecidableEq

/-- The stored role string for a role button. -/
def roleStr : RoleKind → String
  | RoleKind.buyer => "BUYER"
  | RoleKind.seller => "SELLER"

/-- Observable effects of one role-selection press. -/
inductive RoleAction where
  | answerExpired
  | answerTaken
  | editRoleMessage (removeButtons : Bool)
  | answerSelected (role : String)
  | sendStep1
deriving DecidableEq

/-- newbot.py lines 1671-1769: the role-selection branch of
`button_callback`.  A press stores `role_type` under the presser's
lowercased username after the four role-conflict checks; when both
registered usernames have roles the buttons are removed and Step 1 is sent
once (`send_step1_amount_message` sets the room state to `step1`). -/
def role_press (ctx : RoleCtx) (username : String) (k : RoleKind) :
    RoleCtx × List RoleAction :=
  if !ctx.hasRoleMsg then (ctx, [RoleAction.answerExpired])
  else
    let uname := lowerS username
    let initL := lowerS ctx.initiator
    let cpL := lowerS ctx.counterparty
    let initiatorRole := dictGet ctx.roles initL
    let counterpartyRole := dictGet ctx.roles cpL
    let rt := roleStr k
    if rt = "BUYER" ∧ counterpartyRole = some "BUYER" ∧ uname = initL then
      (ctx, [RoleAction.answerTaken])
    else if rt = "SELLER" ∧ counterpartyRole = some "SELLER" ∧ uname = initL then
      (ctx, [RoleAction.answerTaken])
    else if rt = "BUYER" ∧ initiatorRole = some "BUYER" ∧ uname = cpL then
      (ctx, [RoleAction.answerTaken])
    else if rt = "SELLER" ∧ initiatorRole = some "SELLER" ∧ uname = cpL then
      (ctx, [RoleAction.answerTaken])
    else
      let roles' := dictSet ctx.roles uname rt
      let both := (dictGet roles' initL).isSome && (dictGet roles' cpL).isSome
      if both && !ctx.step1Sent then
        ({ ctx with roles := roles', step1Sent := true },
         [RoleAction.editRoleMessage true, RoleAction.answerSelected rt,
          RoleAction.sendStep1])
      else
        ({ ctx with roles := roles' },
         [RoleAction.editRoleMessage both, RoleAction.answerSelected rt])

/-- Run a sequence of role-selection presses. -/
def runRolePresses (ctx : RoleCtx) (presses : List (String × RoleKind)) :
    RoleCtx :=
  presses.foldl (fun acc p => (role_press acc p.1 p.2).1) ctx

/-- newbot.py lines 1580-1597: the deposit address displayed to the room in
the deposit prompt after both parties approve the deal.  `usdtIdx` /
`usdcIdx` are the module-level rotation counters, which the source keeps in
the range of the two-element address lists by updating them modulo the list
length (`getD (· % 2)` mirrors that in-range invariant). -/
def depositDisplayAddress (blockchain coinType : String)
    (usdtIdx usdcIdx : Nat) : String :=
  if blockchain = "BSC" ∧ coinType = "USDT" then
    USDT_BSC_ADDRESSES.getD (usdtIdx % 2) ""
  else if blockchain = "BSC" ∧ coinType = "USDC" then
    USDC_BSC_ADDRESSES.getD (usdcIdx % 2) ""
  else
    (dictGet deposit_addresses_map (blockchain, coinType)).getD
      "0xDA4c2a5B876b0c7521e1c752690D8705080000fE"

/-- The newbot.py module-level dictionaries and sets mutated by
`restart_command` (lines 685-762).  Sets are modelled as membership lists;
`room_messages` (keyed by the stringified chat id) is modelled under the
same integer key. -/
structure BotGlobals where
  disclaimerSent : List Int
  roleSelectionSent : List Int
  processedRooms : List Int
  roomsWaitingForRequests : List Int
  roomMessages : List (Int × Nat)
  roomAwaitingHash : List (Int × String)
  roomTransactionState : List (Int × String)
  sellerAddresses : List (Int × String)
  releaseApprovals : List (Int × (String × String))
  depositAddressMessages : List (Int × Nat)
  sellerWalletMessages : List (Int × Nat)
  userAmounts : List (Nat × PyFloat)
  userRates : List (Nat × PyFloat)
  userPaymentMethods : List (Nat × String)
  userCoins : List (Int × String)
  userBlockchain : List (Int × String)
  userRoles : List (Int × List (String × String))
  roleMessages : List (Int × Nat)
  roomJoinedUsers : List (Int × List String)
deriving DecidableEq

/-- Python `set.discard`. -/
def setDiscard (s : List Int) (x : Int) : List Int :=
  s.filter (fun y => y ≠ x)

/-- newbot.py lines 685-762: the state clearing performed by
`restart_command` for room `originalChatId` (`negChatId` is the raw
negative chat id; `initiator` / `counterparty` are read back from
deal_rooms.json). -/
def restart_command_clear (g : BotGlobals) (originalChatId negChatId : Int)
    (initiator counterparty : Option String) : BotGlobals :=
  let g1 := { g with
    disclaimerSent := setDiscard g.disclaimerSent originalChatId,
    roleSelectionSent := setDiscard g.roleSelectionSent originalChatId,
    processedRooms :=
      setDiscard (setDiscard g.processedRooms negChatId) originalChatId,
    roomsWaitingForRequests :=
      setDiscard (setDiscard g.roomsWaitingForRequests negChatId) originalChatId,
    roomAwaitingHash := dictDel g.roomAwaitingHash originalChatId,
    roomTransactionState := dictDel g.roomTransactionState originalChatId,
    sellerAddresses := dictDel g.sellerAddresses originalChatId,
    releaseApprovals := dictDel g.releaseApprovals originalChatId,
    roomMessages := dictDel g.roomMessages negChatId,
    depositAddressMessages := dictDel g.depositAddressMessages originalChatId,
    sellerWalletMessages := dictDel g.sellerWalletMessages originalChatId }
  let usersToClear := g1.userAmounts.map (fun p => p.1)
  let g2 := { g1 with
    userAmounts := usersToClear.foldl (fun d u => dictDel d u) g1.userAmounts,
    userRates := usersToClear.foldl (fun d u => dictDel d u) g1.userRates,
    userPaymentMethods :=
      usersToClear.foldl (fun d u => dictDel d u) g1.userPaymentMethods }
  let g3 := { g2 with
    userCoins := dictDel g2.userCoins originalChatId,
    userBlockchain := dictDel g2.userBlockchain originalChatId,
    userRoles := dictDel g2.userRoles originalChatId,
    roleMessages := dictDel g2.roleMessages originalChatId }
  if optTruthy initiator && optTruthy counterparty then
    { g3 with roomJoinedUsers := (dictSet g3.roomJoinedUsers originalChatId
        [lowerS (initiator.getD ""), lowerS (counterparty.getD "")]) }
  else g3

/-- The `result` payload attached to a completed deal request (queue-store
JSON). -/
structure QueueResult where
  chatId : Option Int
  roomName : String
  inviteLink : String
  botInviteLink : String
deriving DecidableEq

/-- One record of deal_requests.json: absent `sent` is `false`, absent
`result` / `initiator_chat_id` are `none`. -/
structure QueueReq where
  initiatorUsername : String
  counterpartyUsername : String
  status : String
  result : Option QueueResult
  sent : Bool
  initiatorChatId : Option Int
deriving DecidableEq

/-- newuserbot.py lines 88-106, `update_request_status`, effect on a single
entry: status and result are written to every entry whose
(initiator, counterparty) pair matches. -/
def updateOneRequest (initiator counterparty status : String)
    (result : Option QueueResult) (r : QueueReq) : QueueReq :=
  if r.initiatorUsername = initiator ∧ r.counterpartyUsername = counterparty then
    { r with status := status,
             result := if result.isSome then result else r.result }
  else r

/-- newuserbot.py lines 88-106 over the whole queue file. -/
def update_request_status (reqs : List QueueReq)
    (initiator counterparty status : String) (result : Option QueueResult) :
    List QueueReq :=
  reqs.map (updateOneRequest initiator counterparty status result)

/-- newbot.py lines 272-351, `check_and_send_deal_results`, effect on a
single entry: entries already marked `sent` are skipped outright; a
completed entry matching the polled initiator with a room id in its result
is marked `sent`, and one group notification goes out when the origin chat
is a group (negative id).  Returns the updated entry and the number of
notifications sent. -/
def processDealRequest (initiatorUsername : String) (r : QueueReq) :
    QueueReq × Nat :=
  if r.sent then (r, 0)
  else if r.initiatorUsername = initiatorUsername ∧ r.status = "completed" then
    match r.result with
    | none => (r, 0)
    | some res =>
      match res.chatId with
      | none => (r, 0)
      | some cid =>
        if cid = 0 then (r, 0)
        else
          let notes : Nat :=
            match r.initiatorChatId with
            | some icid => if icid < 0 then 1 else 0
            | none => 0
          ({ r with sent := true }, notes)
  else (r, 0)

/-- newbot.py lines 272-351 over the whole queue file: the updated queue
and the total number of notifications sent in this poll. -/
def check_and_send_deal_results (reqs : List QueueReq)
    (initiatorUsername : String) : List QueueReq × Nat :=
  reqs.foldl
    (fun acc r =>
      let p := processDealRequest initiatorUsername r
      (acc.1 ++ [p.1], acc.2 + p.2))
    ([], 0)

theorem dictGet_set_self {K V : Type} [DecidableEq K]
    (d : List (K × V)) (k : K) (v : V) : dictGet (dictSet d k v) k = some v := by
  induction d with
  | nil => simp [dictGet, dictSet]
  | cons p rest ih =>
    obtain ⟨k', v'⟩ := p
    by_cases h : k' = k
    · simp [dictGet, dictSet, h]
    · simp [dictGet, dictSet, h, ih]

theorem dictGet_set_ne {K V : Type} [DecidableEq K]
    (d : List (K × V)) (k k₀ : K) (v : V) (h : k ≠ k₀) :
    dictGet (dictSet d k v) k₀ = dictGet d k₀ := by
  induction d with
  | nil => simp [dictGet, dictSet, h]
  | cons p rest ih =>
    obtain ⟨k', v'⟩ := p
    by_cases hk : k' = k
    · subst hk
      simp [dictGet, dictSet, h]
    · simp [dictGet, dictSet, hk, ih]

example : pyIntHex? "0x1f" = some 31 := by decide
example : pyIntHex? "0x_1f" = some 31 := by decide
example : pyIntHex? "_1f" = none := by decide
example : pyIntHex? "1_" = none := by decide
example : pyIntHex? " +1f " = some 31 := by decide
example : pyIntHex? "-1f" = some (-31) := by decide
example : pyIntHex? "1__f" = none := by decide
example : pyFloat? "89.5" = some (PyFloat.num 895 10) := by decide
example : pyFloat? "1_000" = some (PyFloat.num 1000 1) := by decide
example : pyFloat? "1e3" = some (PyFloat.num 1000 1) := by decide
example : pyFloat? "nan" = some PyFloat.nan := by decide
example : pyFloat? "+ 1" = none := by decide
example : pyFloat? "." = none := by decide
example : pyFloat? ".5" = some (PyFloat.num 5 10) := by decide
example : pyLt PyFloat.nan 1 = false := by decide
example : pyLt (PyFloat.num 895 10) 85 = false := by decide
example : pyLt (PyFloat.num 800 10) 85 = true := by decide

/-- C1, counterexample: a well-formed 64-hex-digit transaction hash whose
ledger lookup answers without a transaction (`result` empty) is reported
`valid=true` — the verifier substitutes test data whose recipient is the
escrow address — contradicting the claim that a failed lookup always
yields `valid=false`. -/
theorem c1_notFound_counterexample :
    wellFormedTxHash "1111111111111111111111111111111111111111111111111111111111111111" = true ∧
    (verify_transaction_bscscan
      "1111111111111111111111111111111111111111111111111111111111111111"
      "0xDA4c2a5B876b0c7521e1c752690D8705080000fE" true
      LookupOutcome.notFound).valid = true ∧
    (verify_transaction_bscscan
      "1111111111111111111111111111111111111111111111111111111111111111"
      "0xDA4c2a5B876b0c7521e1c752690D8705080000fE" true
      LookupOutcome.notFound).toAddress =
      some (lowerS "0xDA4c2a5B876b0c7521e1c752690D8705080000fE") := by
  decide

/-- C4, counterexample: after buyer and seller both approve, the completion
action has fired once; a further approve press by the buyer in the same
round fires it a second time, contradicting the exactly-once claim. -/
theorem c4_double_fire_counterexample :
    countDealComplete (runReleasePresses
      ⟨"alice", "bob", none, true⟩
      [("alice", PressKind.approve), ("bob", PressKind.approve)]).2 = 1 ∧
    countDealComplete (runReleasePresses
      ⟨"alice", "bob", none, true⟩
      [("alice", PressKind.approve), ("bob", PressKind.approve),
       ("alice", PressKind.approve)]).2 = 2 := by
  decide

/-- C5, counterexample: in a room whose registered participants are
`alice` and `bob`, a role press by the unregistered username `mallory` is
stored, assigning BUYER to a username that is not one of the room's two
registered participants. -/
theorem c5_unregistered_counterexample :
    dictGet (role_press ⟨"alice", "bob", true, [], false⟩ "mallory"
      RoleKind.buyer).1.roles "mallory" = some "BUYER" ∧
    "mallory" ≠ lowerS "alice" ∧ "mallory" ≠ lowerS "bob" := by
  decide

/-- C6: the deposit prompt for a BSC/USDC room displays one of the two
rotating `USDC_BSC_ADDRESSES`, while hash verification always checks
against the fixed `deposit_addresses_map` entry; for USDC the two never
agree (and for USDT they disagree whenever the rotation counter is odd),
so a deposit sent to the displayed address fails verification. -/
theorem c6_display_vs_verification_mismatch (i j : Nat) :
    (some (depositDisplayAddress "BSC" "USDC" i j) ≠
      verificationEscrow (some "BSC") (some "USDC")) ∧
    (i % 2 = 1 → some (depositDisplayAddress "BSC" "USDT" i j) ≠
      verificationEscrow (some "BSC") (some "USDT")) := by
  constructor
  · rcases Nat.mod_two_eq_zero_or_one j with h | h <;>
      simp [depositDisplayAddress, verificationEscrow, dictGet,
        deposit_addresses_map, USDC_BSC_ADDRESSES, h]
  · intro h
    simp [depositDisplayAddress, verificationEscrow, dictGet,
      deposit_addresses_map, USDT_BSC_ADDRESSES, h]

/-- C6, witness: instantiating the mismatch at concrete rotation
counters. -/
theorem c6_display_vs_verification_mismatch_witness :
    some (depositDisplayAddress "BSC" "USDC" 0 0) ≠
      verificationEscrow (some "BSC") (some "USDC") ∧
    some (depositDisplayAddress "BSC" "USDT" 1 0) ≠
      verificationEscrow (some "BSC") (some "USDT") :=
  ⟨(c6_display_vs_verification_mismatch 0 0).1,
   (c6_display_vs_verification_mismatch 1 0).2 (by decide)⟩

/-- C7, counterexample: at the buyer-address step the buyer submits a
42-character string starting with `0x` whose remaining 40 characters are
NOT all hexadecimal (they contain a second `0x`), yet the code accepts it
and advances — because `int(text[2:], 16)` tolerates an inner `0x`
prefix — contradicting the claimed acceptance condition. -/
theorem c7_address_counterexample :
    (handle_text
      ⟨some "step6_buyer_address",
       some ⟨some "alice", some "bob"⟩, none, none, [], [], [],
       none, none, none, none, false⟩
      "alice" 7 "0x0x11111111111111111111111111111111111111" true
      LookupOutcome.notFound).1.transactionState = some "step7_seller_address" ∧
    (handle_text
      ⟨some "step6_buyer_address",
       some ⟨some "alice", some "bob"⟩, none, none, [], [], [],
       none, none, none, none, false⟩
      "alice" 7 "0x0x11111111111111111111111111111111111111" true
      LookupOutcome.notFound).1.buyerAddress =
      some "0x0x11111111111111111111111111111111111111" ∧
    lenS "0x0x11111111111111111111111111111111111111" = 42 ∧
    ("0x0x11111111111111111111111111111111111111".data.drop 2).all isHexDig
      = false := by
  decide

/-- C8, counterexample: at the amount step the input `nan` parses to a
float NaN, for which the code's check `amount < 1` is false, so the room
advances to the rate step even though NaN is not an amount `≥ 1` — invalid
input that advances the step, contradicting the claim. -/
theorem c8_nan_counterexample :
    (handle_text
      ⟨some "step1", none, none, none, [], [], [], none, none, none, none,
       false⟩
      "alice" 7 "nan" true LookupOutcome.notFound).1.transactionState
      = some "step2" ∧
    pyFloat? "nan" = some PyFloat.nan ∧
    pyGe PyFloat.nan 1 = false := by
  decide

/-- C10: restarting room 1001 deletes every entry of `user_amounts`,
`user_rates` and `user_payment_methods`, including those belonging to the
unrelated room 1002's participant (user 222) — while room-keyed state such
as `room_transaction_state` of room 1002 is preserved.  The code's own
comment says it clears user data "for this room", so wiping other rooms'
negotiated terms contradicts the intended frame. -/
theorem c10_restart_wipes_other_rooms :
    (restart_command_clear
      ⟨[], [], [], [], [], [], [(1001, "step3"), (1002, "step2")], [], [],
       [], [],
       [(111, PyFloat.num 1000 1), (222, PyFloat.num 500 1)],
       [(111, PyFloat.num 90 1), (222, PyFloat.num 895 10)],
       [(111, "UPI"), (222, "CDM")], [], [], [], [], []⟩
      1001 (-1000000001001) (some "alice") (some "bob")).userAmounts = [] ∧
    dictGet (restart_command_clear
      ⟨[], [], [], [], [], [], [(1001, "step3"), (1002, "step2")], [], [],
       [], [],
       [(111, PyFloat.num 1000 1), (222, PyFloat.num 500 1)],
       [(111, PyFloat.num 90 1), (222, PyFloat.num 895 10)],
       [(111, "UPI"), (222, "CDM")], [], [], [], [], []⟩
      1001 (-1000000001001) (some "alice") (some "bob")).userRates 222
      = none ∧
    dictGet (restart_command_clear
      ⟨[], [], [], [], [], [], [(1001, "step3"), (1002, "step2")], [], [],
       [], [],
       [(111, PyFloat.num 1000 1), (222, PyFloat.num 500 1)],
       [(111, PyFloat.num 90 1), (222, PyFloat.num 895 10)],
       [(111, "UPI"), (222, "CDM")], [], [], [], [], []⟩
      1001 (-1000000001001) (some "alice") (some "bob")).userPaymentMethods
      222 = none ∧
    dictGet (restart_command_clear
      ⟨[], [], [], [], [], [], [(1001, "step3"), (1002, "step2")], [], [],
       [], [],
       [(111, PyFloat.num 1000 1), (222, PyFloat.num 500 1)],
       [(111, PyFloat.num 90 1), (222, PyFloat.num 895 10)],
       [(111, "UPI"), (222, "CDM")], [], [], [], [], []⟩
      1001 (-1000000001001) (some "alice") (some "bob")).roomTransactionState
      1002 = some "step2" := by
  decide

theorem approve_release_fires_iff (ctx : ReleaseCtx) (u : String) :
    RelAction.dealComplete ∈ (approve_release ctx u).2 ↔
      ((releaseUserRole ctx u).isSome ∧
        (approve_release ctx u).1.approvals = some ("approved", "approved")) := by
  cases hr : releaseUserRole ctx u with
  | none => simp [approve_release, hr]
  | some role =>
    by_cases hb : role = "buyer" <;>
      by_cases hc1 : (ctx.approvals.getD ("waiting", "waiting")).1 = "approved" <;>
      by_cases hc2 : (ctx.approvals.getD ("waiting", "waiting")).2 = "approved" <;>
      cases hm : ctx.hasReleaseMsg <;>
      simp [approve_release, hr, hb, hc1, hc2, hm, Prod.ext_iff]

theorem decline_release_no_fire (ctx : ReleaseCtx) (u : String) :
    RelAction.dealComplete ∉ (decline_release ctx u).2 := by
  cases hr : releaseUserRole ctx u <;>
    cases hm : ctx.hasReleaseMsg <;>
    simp [decline_release, hr, hm]

/-- C3: the release gate's completion action fires only when, after the
press, the buyer's status and the seller's status are both `approved`; a
decline press never fires it, and an approve press by one party while the
other party's status is still `waiting` or `rejected` never fires it. -/
theorem c3_completion_requires_both_approvals (ctx : ReleaseCtx)
    (u : String) (k : PressKind) :
    (RelAction.dealComplete ∈ (releasePress ctx (u, k)).2 →
      (releasePress ctx (u, k)).1.approvals = some ("approved", "approved")) ∧
    (k = PressKind.decline →
      RelAction.dealComplete ∉ (releasePress ctx (u, k)).2) ∧
    (releaseUserRole ctx u = some "buyer" →
      (ctx.approvals.getD ("waiting", "waiting")).2 ≠ "approved" →
      RelAction.dealComplete ∉ (approve_release ctx u).2) ∧
    (releaseUserRole ctx u = some "seller" →
      (ctx.approvals.getD ("waiting", "waiting")).1 ≠ "approved" →
      RelAction.dealComplete ∉ (approve_release ctx u).2) := by
  refine ⟨?_, ?_, ?_, ?_⟩
  · intro hmem
    cases k with
    | approve =>
      simp only [releasePress] at hmem ⊢
      exact ((approve_release_fires_iff ctx u).mp hmem).2
    | decline =>
      simp only [releasePress] at hmem
      exact absurd hmem (decline_release_no_fire ctx u)
  · intro hk
    subst hk
    simp only [releasePress]
    exact decline_release_no_fire ctx u
  · intro hr hc hmem
    have h2 := ((approve_release_fires_iff ctx u).mp hmem).2
    simp [approve_release, hr, hc, Prod.ext_iff] at h2
  · intro hr hc hmem
    have h2 := ((approve_release_fires_iff ctx u).mp hmem).2
    simp [approve_release, hr, hc, Prod.ext_iff] at h2

/-- C3, witness: with the buyer already `approved` and the seller pressing
approve, completion fires and the resulting round state is
buyer=approved ∧ seller=approved. -/
theorem c3_completion_requires_both_approvals_witness :
    (releasePress ⟨"alice", "bob", some ("approved", "waiting"), true⟩
      ("bob", PressKind.approve)).1.approvals = some ("approved", "approved") :=
  (c3_completion_requires_both_approvals
    ⟨"alice", "bob", some ("approved", "waiting"), true⟩ "bob"
    PressKind.approve).1 (by decide)

/-- C4, amended: the completion action fires on exactly those approve
presses that are made by an authorized party and leave both statuses
`approved`; when it fires, the prompt's action controls are removed (the
caption is edited with the buttons dropped).  Because the handler keeps no
fired-flag, this means completion fires once per round only if no further
approve press is delivered after both parties have approved — a duplicate
approve press fires it again. -/
theorem c4_completion_fire_characterization (ctx : ReleaseCtx) (u : String) :
    (RelAction.dealComplete ∈ (approve_release ctx u).2 ↔
      ((releaseUserRole ctx u).isSome ∧
        (approve_release ctx u).1.approvals = some ("approved", "approved"))) ∧
    (ctx.hasReleaseMsg = true →
      RelAction.dealComplete ∈ (approve_release ctx u).2 →
      RelAction.editCaption false ∈ (approve_release ctx u).2) := by
  refine ⟨approve_release_fires_iff ctx u, ?_⟩
  intro hm hmem
  cases hr : releaseUserRole ctx u with
  | none => simp [approve_release, hr] at hmem
  | some role =>
    by_cases hb : role = "buyer" <;>
      by_cases hc1 : (ctx.approvals.getD ("waiting", "waiting")).1 = "approved" <;>
      by_cases hc2 : (ctx.approvals.getD ("waiting", "waiting")).2 = "approved" <;>
      simp [approve_release, hr, hb, hc1, hc2, hm] at hmem ⊢

/-- C4, witness: a second approve press in an already-both-approved round
fires completion again and again edits the caption without buttons. -/
theorem c4_completion_fire_characterization_witness :
    RelAction.editCaption false ∈
      (approve_release ⟨"alice", "bob", some ("approved", "approved"), true⟩
        "alice").2 :=
  (c4_completion_fire_characterization
    ⟨"alice", "bob", some ("approved", "approved"), true⟩ "alice").2
    (by decide) (by decide)

/-- C2: in a room awaiting a deposit hash (with a mapped escrow address
and a recorded amount), submitting text whose extracted hash equals
`master_hash` case-insensitively performs no external verification call,
emits exactly one deposit-found message, sets the room's confirmed deposit
to the recorded amount, and clears both awaiting-hash state entries. -/
theorem c2_master_hash_bypass (ctx : RoomCtx) (sender : String)
    (senderId : Nat) (text : String) (hasKey : Bool)
    (outcome : LookupOutcome) (a : PyFloat) (esc : String)
    (hstate : ctx.transactionState = some "awaiting_hash")
    (hesc : verificationEscrow ctx.blockchain ctx.coin = some esc)
    (hamt : (ctx.amounts.head?).map (fun p => p.2) = some a)
    (htru : pyTruthy a = true)
    (hmh : lowerS (extractTxHash (stripS text)) = lowerS master_hash) :
    (handle_text ctx sender senderId text hasKey outcome).2.countP isVerifyCall = 0 ∧
    (handle_text ctx sender senderId text hasKey outcome).2.countP isDepositFound = 1 ∧
    (handle_text ctx sender senderId text hasKey outcome).1.confirmedDeposit = some a ∧
    (handle_text ctx sender senderId text hasKey outcome).1.awaitingHash = none ∧
    (handle_text ctx sender senderId text hasKey outcome).1.transactionState = none := by
  have hres : handle_text ctx sender senderId text hasKey outcome =
      hashStep ctx text hasKey outcome := by
    simp [handle_text, hstate]
  simp only [hres, hashStep, hesc, hamt, htru, hmh]
  cases hdm : ctx.hasDepositMsg <;>
    simp [isVerifyCall, isDepositFound, List.countP_append, List.countP_cons]

/-- C2, witness: a concrete awaiting-hash room where the master hash is
submitted verbatim. -/
theorem c2_master_hash_bypass_witness :
    (handle_text
      ⟨some "awaiting_hash", some ⟨some "alice", some "bob"⟩,
       some "BSC", some "USDT", [(7, PyFloat.num 1000 1)], [], [],
       some "0xB", some "0xS", some "awaiting_hash", none, true⟩
      "bob" 7 master_hash true LookupOutcome.badJson).2.countP isVerifyCall = 0 ∧
    (handle_text
      ⟨some "awaiting_hash", some ⟨some "alice", some "bob"⟩,
       some "BSC", some "USDT", [(7, PyFloat.num 1000 1)], [], [],
       some "0xB", some "0xS", some "awaiting_hash", none, true⟩
      "bob" 7 master_hash true LookupOutcome.badJson).2.countP isDepositFound = 1 ∧
    (handle_text
      ⟨some "awaiting_hash", some ⟨some "alice", some "bob"⟩,
       some "BSC", some "USDT", [(7, PyFloat.num 1000 1)], [], [],
       some "0xB", some "0xS", some "awaiting_hash", none, true⟩
      "bob" 7 master_hash true LookupOutcome.badJson).1.confirmedDeposit
      = some (PyFloat.num 1000 1) ∧
    (handle_text
      ⟨some "awaiting_hash", some ⟨some "alice", some "bob"⟩,
       some "BSC", some "USDT", [(7, PyFloat.num 1000 1)], [], [],
       some "0xB", some "0xS", some "awaiting_hash", none, true⟩
      "bob" 7 master_hash true LookupOutcome.badJson).1.awaitingHash = none ∧
    (handle_text
      ⟨some "awaiting_hash", some ⟨some "alice", some "bob"⟩,
       some "BSC", some "USDT", [(7, PyFloat.num 1000 1)], [], [],
       some "0xB", some "0xS", some "awaiting_hash", none, true⟩
      "bob" 7 master_hash true LookupOutcome.badJson).1.transactionState = none :=
  c2_master_hash_bypass
    ⟨some "awaiting_hash", some ⟨some "alice", some "bob"⟩,
     some "BSC", some "USDT", [(7, PyFloat.num 1000 1)], [], [],
     some "0xB", some "0xS", some "awaiting_hash", none, true⟩
    "bob" 7 master_hash true LookupOutcome.badJson (PyFloat.num 1000 1)
    "0xDA4c2a5B876b0c7521e1c752690D8705080000fE"
    (by decide) (by decide) (by decide) (by decide) (by decide)

/-- C1, amended: for a well-formed hash the verifier returns `valid=false`
with a reason when the lookup call raises, when the response is empty,
when it cannot be parsed as JSON, when no API key is configured, and when
a returned transaction's recipient does not match the escrow address; but
when the lookup succeeds while returning no transaction, it substitutes
test data whose recipient is the escrow address and returns `valid=true`. -/
theorem c1_verifier_error_handling (tx escrow : String)
    (outcome : LookupOutcome) (hwf : wellFormedTxHash tx = true) :
    (∀ m, (verify_transaction_bscscan tx escrow true
      (LookupOutcome.netError m)).valid = false ∧
      (verify_transaction_bscscan tx escrow true
        (LookupOutcome.netError m)).error.isSome = true) ∧
    ((verify_transaction_bscscan tx escrow true
      LookupOutcome.emptyText).valid = false) ∧
    ((verify_transaction_bscscan tx escrow true
      LookupOutcome.badJson).valid = false) ∧
    ((verify_transaction_bscscan tx escrow false outcome).valid = false) ∧
    (∀ f t v b, lowerS t ≠ lowerS escrow →
      (verify_transaction_bscscan tx escrow true
        (LookupOutcome.txFound f t v b)).valid = false) ∧
    ((verify_transaction_bscscan tx escrow true
      LookupOutcome.notFound).valid = true ∧
      (verify_transaction_bscscan tx escrow true
        LookupOutcome.notFound).toAddress = some (lowerS escrow)) := by
  have hparts := Bool.and_eq_true_iff.mp hwf
  have h1 : 32 ≤ lenS (normalizedTxHash tx) := of_decide_eq_true hparts.1
  have hlt : ¬(lenS (normalizedTxHash tx) < 32) := by omega
  have hnone : (pyIntHex? (replaceS (normalizedTxHash tx) "0x" "")).isNone
      = false := by
    cases hpx : pyIntHex? (replaceS (normalizedTxHash tx) "0x" "") with
    | none =>
      rw [hpx] at hparts
      simp at hparts
    | some v => simp
  refine ⟨?_, ?_, ?_, ?_, ?_, ?_⟩
  · intro m
    constructor <;> simp [verify_transaction_bscscan, hlt, hnone, invalidResult]
  · simp [verify_transaction_bscscan, hlt, hnone, invalidResult]
  · simp [verify_transaction_bscscan, hlt, hnone, invalidResult]
  · cases outcome <;>
      simp [verify_transaction_bscscan, hlt, hnone, invalidResult]
  · intro f t v b ht
    simp [verify_transaction_bscscan, hlt, hnone, invalidResult, ht]
  · constructor <;> simp [verify_transaction_bscscan, hlt, hnone, invalidResult]

/-- C1, witness: a concrete well-formed hash with a recipient that differs
from the escrow address is reported `valid=false`. -/
theorem c1_verifier_error_handling_witness :
    (verify_transaction_bscscan
      "1111111111111111111111111111111111111111111111111111111111111111"
      "0xAbCd" true
      (LookupOutcome.txFound "0xF" "0xEE" "0x5f5e100" "9")).valid = false :=
  (c1_verifier_error_handling
    "1111111111111111111111111111111111111111111111111111111111111111"
    "0xAbCd" LookupOutcome.notFound (by decide)).2.2.2.2.1
    "0xF" "0xEE" "0x5f5e100" "9" (by decide)

theorem role_press_initiator (ctx : RoleCtx) (u : String) (k : RoleKind) :
    (role_press ctx u k).1.initiator = ctx.initiator := by
  simp only [role_press]
  split_ifs <;> rfl

theorem role_press_counterparty (ctx : RoleCtx) (u : String) (k : RoleKind) :
    (role_press ctx u k).1.counterparty = ctx.counterparty := by
  simp only [role_press]
  split_ifs <;> rfl

theorem role_press_roles_eq (ctx : RoleCtx) (u : String) (k : RoleKind) :
    (role_press ctx u k).1.roles = ctx.roles ∨
    ((role_press ctx u k).1.roles = dictSet ctx.roles (lowerS u) (roleStr k) ∧
      ¬(roleStr k = "BUYER" ∧
          dictGet ctx.roles (lowerS ctx.counterparty) = some "BUYER" ∧
          lowerS u = lowerS ctx.initiator) ∧
      ¬(roleStr k = "SELLER" ∧
          dictGet ctx.roles (lowerS ctx.counterparty) = some "SELLER" ∧
          lowerS u = lowerS ctx.initiator) ∧
      ¬(roleStr k = "BUYER" ∧
          dictGet ctx.roles (lowerS ctx.initiator) = some "BUYER" ∧
          lowerS u = lowerS ctx.counterparty) ∧
      ¬(roleStr k = "SELLER" ∧
          dictGet ctx.roles (lowerS ctx.initiator) = some "SELLER" ∧
          lowerS u = lowerS ctx.counterparty)) := by
  simp only [role_press]
  split_ifs with h0 h1 h2 h3 h4 h5
  · left; rfl
  · left; rfl
  · left; rfl
  · left; rfl
  · left; rfl
  · right; exact ⟨rfl, h1, h2, h3, h4⟩
  · right; exact ⟨rfl, h1, h2, h3, h4⟩

theorem role_press_preserves_distinct (ctx : RoleCtx) (u : String)
    (k : RoleKind)
    (hne : lowerS ctx.initiator ≠ lowerS ctx.counterparty)
    (hinv : ∀ r, ¬(dictGet ctx.roles (lowerS ctx.initiator) = some r ∧
        dictGet ctx.roles (lowerS ctx.counterparty) = some r)) :
    ∀ r, ¬(dictGet (role_press ctx u k).1.roles (lowerS ctx.initiator) = some r ∧
        dictGet (role_press ctx u k).1.roles (lowerS ctx.counterparty) = some r) := by
  intro r hcon
  rcases role_press_roles_eq ctx u k with heq | ⟨heq, hc1, hc2, hc3, hc4⟩
  · rw [heq] at hcon
    exact hinv r hcon
  · rw [heq] at hcon
    obtain ⟨ha, hb⟩ := hcon
    by_cases hui : lowerS u = lowerS ctx.initiator
    · rw [hui] at ha hb
      rw [dictGet_set_self] at ha
      rw [dictGet_set_ne ctx.roles (lowerS ctx.initiator)
        (lowerS ctx.counterparty) (roleStr k) hne] at hb
      have hr : roleStr k = r := Option.some.inj ha
      cases k with
      | buyer => exact hc1 ⟨rfl, by subst hr; exact hb, hui⟩
      | seller => exact hc2 ⟨rfl, by subst hr; exact hb, hui⟩
    · by_cases huc : lowerS u = lowerS ctx.counterparty
      · rw [huc] at ha hb
        rw [dictGet_set_self] at hb
        rw [dictGet_set_ne ctx.roles (lowerS ctx.counterparty)
          (lowerS ctx.initiator) (roleStr k) (Ne.symm hne)] at ha
        have hr : roleStr k = r := Option.some.inj hb
        cases k with
        | buyer => exact hc3 ⟨rfl, by subst hr; exact ha, huc⟩
        | seller => exact hc4 ⟨rfl, by subst hr; exact ha, huc⟩
      · rw [dictGet_set_ne ctx.roles (lowerS u) (lowerS ctx.initiator)
          (roleStr k) hui] at ha
        rw [dictGet_set_ne ctx.roles (lowerS u) (lowerS ctx.counterparty)
          (roleStr k) huc] at hb
        exact hinv r ⟨ha, hb⟩

theorem runRolePresses_preserves_distinct
    (presses : List (String × RoleKind)) :
    ∀ ctx : RoleCtx, lowerS ctx.initiator ≠ lowerS ctx.counterparty →
    (∀ r, ¬(dictGet ctx.roles (lowerS ctx.initiator) = some r ∧
        dictGet ctx.roles (lowerS ctx.counterparty) = some r)) →
    ∀ r, ¬(dictGet (runRolePresses ctx presses).roles
        (lowerS ctx.initiator) = some r ∧
      dictGet (runRolePresses ctx presses).roles
        (lowerS ctx.counterparty) = some r) := by
  induction presses with
  | nil =>
    intro ctx hne hinv
    simpa [runRolePresses] using hinv
  | cons p ps ih =>
    intro ctx hne hinv r
    have hfold : runRolePresses ctx (p :: ps) =
        runRolePresses (role_press ctx p.1 p.2).1 ps := by
      simp [runRolePresses]
    rw [hfold]
    have hinit := role_press_initiator ctx p.1 p.2
    have hcp := role_press_counterparty ctx p.1 p.2
    have hne' : lowerS (role_press ctx p.1 p.2).1.initiator ≠
        lowerS (role_press ctx p.1 p.2).1.counterparty := by
      rw [hinit, hcp]
      exact hne
    have hinv' := role_press_preserves_distinct ctx p.1 p.2 hne hinv
    have hmain := ih (role_press ctx p.1 p.2).1 hne'
      (by rw [hinit, hcp]; exact hinv') r
    rw [hinit, hcp] at hmain
    exact hmain

/-- C5, amended: starting from an empty roles map, no sequence of
role-selection presses ever assigns the same role to both registered
usernames (the four conflict checks prevent it); however the handler does
not restrict storage to registered participants, so an unregistered
username pressing a role button is also stored (see the counterexample). -/
theorem c5_roles_never_same_for_both (init cp : String)
    (presses : List (String × RoleKind))
    (hne : lowerS init ≠ lowerS cp) :
    ∀ r, ¬(dictGet (runRolePresses ⟨init, cp, true, [], false⟩ presses).roles
        (lowerS init) = some r ∧
      dictGet (runRolePresses ⟨init, cp, true, [], false⟩ presses).roles
        (lowerS cp) = some r) :=
  runRolePresses_preserves_distinct presses ⟨init, cp, true, [], false⟩ hne
    (by simp [dictGet])

/-- C5, witness: with registered participants alice and bob, after alice
takes BUYER and bob attempts BUYER, the roles map does not assign BUYER to
both. -/
theorem c5_roles_never_same_for_both_witness :
    ¬(dictGet (runRolePresses ⟨"alice", "bob", true, [], false⟩
        [("alice", RoleKind.buyer), ("bob", RoleKind.buyer)]).roles
        (lowerS "alice") = some "BUYER" ∧
      dictGet (runRolePresses ⟨"alice", "bob", true, [], false⟩
        [("alice", RoleKind.buyer), ("bob", RoleKind.buyer)]).roles
        (lowerS "bob") = some "BUYER") :=
  c5_roles_never_same_for_both "alice" "bob"
    [("alice", RoleKind.buyer), ("bob", RoleKind.buyer)] (by decide) "BUYER"

/-- C7, amended: at the buyer-address (resp. seller-address) step with a
registered buyer (resp. seller), a submitter other than that role-holder
is rejected with a single reply and no state change; the role-holder's
submission is accepted exactly when it starts with `0x`, is 42 characters
long, and its remainder parses under CPython's base-16 integer grammar
(which admits plain hex but also a sign, an inner `0x`, underscores
between digits and surrounding whitespace — strictly wider than "40
hexadecimal characters"); on acceptance the room advances to the
seller-address step resp. to the deal-approval (deal-summary) stage. -/
theorem c7_address_steps_amended (ctx : RoomCtx) (sender text : String)
    (senderId : Nat) (hasKey : Bool) (oc : LookupOutcome) :
    (∀ roles b, ctx.transactionState = some "step6_buyer_address" →
      ctx.initiators = some roles → roles.buyer = some b → b ≠ "" →
      ((lowerS sender ≠ lowerS b →
        handle_text ctx sender senderId text hasKey oc =
          (ctx, [BotAction.reply "Only the buyer can provide their wallet address"])) ∧
       (lowerS sender = lowerS b → addrFormatOk text = false →
        handle_text ctx sender senderId text hasKey oc =
          (ctx, [BotAction.reply addrFormatErr])) ∧
       (lowerS sender = lowerS b → addrFormatOk text = true →
        (handle_text ctx sender senderId text hasKey oc).1 =
          { ctx with buyerAddress := some text,
                     transactionState := some "step7_seller_address" }))) ∧
    (∀ roles s, ctx.transactionState = some "step7_seller_address" →
      ctx.initiators = some roles → roles.seller = some s → s ≠ "" →
      ((lowerS sender ≠ lowerS s →
        handle_text ctx sender senderId text hasKey oc =
          (ctx, [BotAction.reply "Only the seller can provide their wallet address"])) ∧
       (lowerS sender = lowerS s → addrFormatOk text = false →
        handle_text ctx sender senderId text hasKey oc =
          (ctx, [BotAction.reply addrFormatErr])) ∧
       (lowerS sender = lowerS s → addrFormatOk text = true →
        handle_text ctx sender senderId text hasKey oc =
          ({ ctx with sellerAddress := some text,
                      transactionState := some "deal_summary" },
           [BotAction.prompt "deal_summary"])))) := by
  constructor
  · intro roles b hstate hinit hb hbne
    have hdisp : handle_text ctx sender senderId text hasKey oc =
        buyerAddressStep ctx sender text := by
      simp [handle_text, hstate]
    refine ⟨?_, ?_, ?_⟩
    · intro hs
      simp [hdisp, buyerAddressStep, hinit, hb, hbne, hs]
    · intro hs hfmt
      by_cases h1 : startsWithS text "0x"
      · by_cases h2 : lenS text = 42
        · cases hpx : pyIntHex? ⟨text.data.drop 2⟩ with
          | some v =>
            rw [addrFormatOk, h1, hpx] at hfmt
            simp [h2] at hfmt
          | none =>
            simp [hdisp, buyerAddressStep, hinit, hb, hs, h1, h2, hpx]
        · simp [hdisp, buyerAddressStep, hinit, hb, hs, h1, h2]
      · simp [hdisp, buyerAddressStep, hinit, hb, hs, h1]
    · intro hs hfmt
      simp only [addrFormatOk, Bool.and_eq_true, decide_eq_true_eq] at hfmt
      obtain ⟨⟨h1, h2⟩, h3⟩ := hfmt
      cases hpx : pyIntHex? ⟨text.data.drop 2⟩ with
      | none =>
        rw [hpx] at h3
        simp at h3
      | some v =>
        simp [hdisp, buyerAddressStep, hinit, hb, hs, h1, h2, hpx]
  · intro roles s hstate hinit hsl hsne
    have hdisp : handle_text ctx sender senderId text hasKey oc =
        sellerAddressStep ctx sender text := by
      simp [handle_text, hstate]
    refine ⟨?_, ?_, ?_⟩
    · intro hs
      simp [hdisp, sellerAddressStep, hinit, hsl, hsne, hs]
    · intro hs hfmt
      by_cases h1 : startsWithS text "0x"
      · by_cases h2 : lenS text = 42
        · cases hpx : pyIntHex? ⟨text.data.drop 2⟩ with
          | some v =>
            rw [addrFormatOk, h1, hpx] at hfmt
            simp [h2] at hfmt
          | none =>
            simp [hdisp, sellerAddressStep, hinit, hsl, hs, h1, h2, hpx]
        · simp [hdisp, sellerAddressStep, hinit, hsl, hs, h1, h2]
      · simp [hdisp, sellerAddressStep, hinit, hsl, hs, h1]
    · intro hs hfmt
      simp only [addrFormatOk, Bool.and_eq_true, decide_eq_true_eq] at hfmt
      obtain ⟨⟨h1, h2⟩, h3⟩ := hfmt
      cases hpx : pyIntHex? ⟨text.data.drop 2⟩ with
      | none =>
        rw [hpx] at h3
        simp at h3
      | some v =>
        simp [hdisp, sellerAddressStep, hinit, hsl, hs, h1, h2, hpx]

/-- C7, witness: the registered buyer submits a plain 42-character hex
address at the buyer-address step and the room advances to the
seller-address step with the address stored. -/
theorem c7_address_steps_amended_witness :
    (handle_text
      ⟨some "step6_buyer_address", some ⟨some "alice", some "bob"⟩,
       none, none, [], [], [], none, none, none, none, false⟩
      "alice" 7 "0xDA4c2a5B876b0c7521e1c752690D8705080000fE" true
      LookupOutcome.notFound).1 =
      { (⟨some "step6_buyer_address", some ⟨some "alice", some "bob"⟩,
         none, none, [], [], [], none, none, none, none, false⟩ : RoomCtx) with
        buyerAddress := some "0xDA4c2a5B876b0c7521e1c752690D8705080000fE",
        transactionState := some "step7_seller_address" } :=
  ((c7_address_steps_amended
    ⟨some "step6_buyer_address", some ⟨some "alice", some "bob"⟩,
     none, none, [], [], [], none, none, none, none, false⟩
    "alice" "0xDA4c2a5B876b0c7521e1c752690D8705080000fE" 7 true
    LookupOutcome.notFound).1 ⟨some "alice", some "bob"⟩ "alice"
    rfl rfl rfl (by decide)).2.2 rfl (by decide)

/-- C8, amended: at the amount, rate and payment-method steps, input the
code's validation rejects (an unparseable number, an amount with
`amount < 1` true, a rate with `rate < 85` true, an unknown payment
method) leaves the step unchanged and produces exactly one rejection
reply, while input passing the validation advances to the next step and
stores the value; the numeric comparisons are Python float `<`, under
which NaN passes (see the counterexample). -/
theorem c8_text_step_validation (ctx : RoomCtx) (sender : String)
    (senderId : Nat) (text : String) (hasKey : Bool) (oc : LookupOutcome) :
    (ctx.transactionState = some "step1" →
      ((pyFloat? text = none →
        handle_text ctx sender senderId text hasKey oc =
          (ctx, [BotAction.reply "Please enter a valid number"])) ∧
       (∀ a, pyFloat? text = some a → pyLt a 1 = true →
        handle_text ctx sender senderId text hasKey oc =
          (ctx, [BotAction.reply "Amount must be at least 1"])) ∧
       (∀ a, pyFloat? text = some a → pyLt a 1 = false →
        handle_text ctx sender senderId text hasKey oc =
          ({ ctx with amounts := dictSet ctx.amounts senderId a,
                      transactionState := some "step2" },
           [BotAction.prompt "step2"])))) ∧
    (ctx.transactionState = some "step2" →
      ((pyFloat? text = none →
        handle_text ctx sender senderId text hasKey oc =
          (ctx, [BotAction.reply "Please enter a valid number"])) ∧
       (∀ a, pyFloat? text = some a → pyLt a 85 = true →
        handle_text ctx sender senderId text hasKey oc =
          (ctx, [BotAction.reply "Rate must be at least 85"])) ∧
       (∀ a, pyFloat? text = some a → pyLt a 85 = false →
        handle_text ctx sender senderId text hasKey oc =
          ({ ctx with rates := dictSet ctx.rates senderId a,
                      transactionState := some "step3" },
           [BotAction.prompt "step3"])))) ∧
    (ctx.transactionState = some "step3" →
      ((valid_payment_methods.contains (upperS text) = false →
        handle_text ctx sender senderId text hasKey oc =
          (ctx, [BotAction.reply "Invalid Payment Method"])) ∧
       (valid_payment_methods.contains (upperS text) = true →
        handle_text ctx sender senderId text hasKey oc =
          ({ ctx with
              paymentMethods :=
                (dictSet ctx.paymentMethods senderId (upperS text)),
              transactionState := some "step4" },
           [BotAction.prompt "step4"])))) := by
  refine ⟨?_, ?_, ?_⟩
  · intro hstate
    have hdisp : handle_text ctx sender senderId text hasKey oc =
        amountStep ctx senderId text := by
      simp [handle_text, hstate]
    refine ⟨?_, ?_, ?_⟩
    · intro hp
      simp [hdisp, amountStep, hp]
    · intro a hp hlt
      simp [hdisp, amountStep, hp, hlt]
    · intro a hp hlt
      simp [hdisp, amountStep, hp, hlt]
  · intro hstate
    have hdisp : handle_text ctx sender senderId text hasKey oc =
        rateStep ctx senderId text := by
      simp [handle_text, hstate]
    refine ⟨?_, ?_, ?_⟩
    · intro hp
      simp [hdisp, rateStep, hp]
    · intro a hp hlt
      simp [hdisp, rateStep, hp, hlt]
    · intro a hp hlt
      simp [hdisp, rateStep, hp, hlt]
  · intro hstate
    have hdisp : handle_text ctx sender senderId text hasKey oc =
        paymentStep ctx senderId text := by
      simp [handle_text, hstate]
    constructor
    · intro hpm
      simp [hdisp, paymentStep, hpm]
      simpa using hpm
    · intro hpm
      simp [hdisp, paymentStep, hpm]
      simpa using hpm

/-- C8, witness: Scenario B — rate 80 with floor 85 is rejected with one
reply and no state change. -/
theorem c8_text_step_validation_witness :
    handle_text
      ⟨some "step2", none, none, none, [], [], [], none, none, none, none,
       false⟩
      "alice" 7 "80" true LookupOutcome.notFound =
      (⟨some "step2", none, none, none, [], [], [], none, none, none, none,
        false⟩,
       [BotAction.reply "Rate must be at least 85"]) :=
  ((c8_text_step_validation
    ⟨some "step2", none, none, none, [], [], [], none, none, none, none,
     false⟩
    "alice" 7 "80" true LookupOutcome.notFound).2.1 rfl).2.1
    (PyFloat.num 80 1) (by decide) (by decide)

/-- C9: a queue entry's status and result are updated exactly when its
(initiator, counterparty) pair matches; the result-poll skips entries
already marked `sent`, and once an entry has produced a notification it is
marked `sent`, making every subsequent poll over it a no-op. -/
theorem c9_queue_match_and_idempotence (i c st : String)
    (res : Option QueueResult) (r : QueueReq) :
    (¬(r.initiatorUsername = i ∧ r.counterpartyUsername = c) →
      updateOneRequest i c st res r = r) ∧
    (r.initiatorUsername = i → r.counterpartyUsername = c →
      (updateOneRequest i c st res r).status = st ∧
      (res.isSome = true → (updateOneRequest i c st res r).result = res)) ∧
    (r.sent = true → processDealRequest i r = (r, 0)) ∧
    (∀ r' n, processDealRequest i r = (r', n) → 1 ≤ n →
      r'.sent = true ∧ processDealRequest i r' = (r', 0)) := by
  refine ⟨?_, ?_, ?_, ?_⟩
  · intro hmis
    simp [updateOneRequest, hmis]
  · intro hi hc
    constructor
    · simp [updateOneRequest, hi, hc]
    · intro hres
      simp [updateOneRequest, hi, hc, hres]
  · intro hs
    simp [processDealRequest, hs]
  · intro r' n hpr hn
    by_cases hs : r.sent = true
    · simp [processDealRequest, hs] at hpr
      omega
    · have hs' : r.sent = false := by
        revert hs
        cases r.sent <;> simp
      by_cases hmatch : r.initiatorUsername = i ∧ r.status = "completed"
      · cases hres : r.result with
        | none =>
          simp [processDealRequest, hs', hmatch, hres] at hpr
          omega
        | some q =>
          cases hcid : q.chatId with
          | none =>
            simp [processDealRequest, hs', hmatch, hres, hcid] at hpr
            omega
          | some cid =>
            by_cases hc0 : cid = 0
            · simp [processDealRequest, hs', hmatch, hres, hcid, hc0] at hpr
              omega
            · simp [processDealRequest, hs', hmatch, hres, hcid, hc0] at hpr
              obtain ⟨hr', hn'⟩ := hpr
              subst hr'
              constructor
              · rfl
              · simp [processDealRequest]
      · simp [processDealRequest, hs', hmatch] at hpr
        omega

/-- C9, witness: a completed entry for (alice, bob) with a group origin is
notified once, marked `sent`, and the next poll over it is a no-op. -/
theorem c9_queue_match_and_idempotence_witness :
    (⟨"alice", "bob", "completed", some ⟨some 555, "MM ROOM 5", "L", "B"⟩,
      true, some (-42)⟩ : QueueReq).sent = true ∧
    processDealRequest "alice"
      ⟨"alice", "bob", "completed", some ⟨some 555, "MM ROOM 5", "L", "B"⟩,
       true, some (-42)⟩ =
      (⟨"alice", "bob", "completed", some ⟨some 555, "MM ROOM 5", "L", "B"⟩,
        true, some (-42)⟩, 0) :=
  (c9_queue_match_and_idempotence "alice" "bob" "completed"
    (some ⟨some 555, "MM ROOM 5", "L", "B"⟩)
    ⟨"alice", "bob", "completed", some ⟨some 555, "MM ROOM 5", "L", "B"⟩,
     false, some (-42)⟩).2.2.2
    ⟨"alice", "bob", "completed", some ⟨some 555, "MM ROOM 5", "L", "B"⟩,
     true, some (-42)⟩ 1 (by decide) (by decide)

end P2pup
